import Mathlib

/-!
Verification of the TLS 1.3 key scheduler (fizz/protocol/KeyScheduler.cpp).

The scheduler is embedded shallowly: byte buffers are `List Nat`, the injected
derivation primitive (`deriver_`, a `KeyDerivation` in the original) is an
abstract structure of functions, and the two mutable slots (`secret_`, an
optional variant over the three chain secrets, and `appTrafficSecret_`) form
an explicit state record threaded through every operation.  C++ exceptions,
dereferences of an empty `folly::Optional`, a `boost::get` on the wrong
variant, and `LOG(FATAL)` all become `Except` errors.  The `uint32_t`
generation counters are modelled as naturals reduced modulo 2^32 at each
increment.
-/

/-- Byte buffers (`std::vector<uint8_t>`, `folly::ByteRange`, coalesced
`folly::IOBuf`) are lists of naturals. -/
abbrev Bytes := List Nat

/-- ASCII encoding of the label string constants at the top of
KeyScheduler.cpp. -/
def asciiBytes (s : String) : Bytes := s.toList.map Char.toNat

def kTrafficKey : Bytes := asciiBytes "key"

def kTrafficIv : Bytes := asciiBytes "iv"

def kExternalPskBinder : Bytes := asciiBytes "ext binder"

def kResumptionPskBinder : Bytes := asciiBytes "res binder"

def kClientEarlyTraffic : Bytes := asciiBytes "c e traffic"

def kEarlyExporter : Bytes := asciiBytes "e exp master"

def kClientHandshakeTraffic : Bytes := asciiBytes "c hs traffic"

def kServerHandshakeTraffic : Bytes := asciiBytes "s hs traffic"

def kClientAppTraffic : Bytes := asciiBytes "c ap traffic"

def kServerAppTraffic : Bytes := asciiBytes "s ap traffic"

def kExporterMaster : Bytes := asciiBytes "exp master"

def kResumptionMaster : Bytes := asciiBytes "res master"

def kDerivedSecret : Bytes := asciiBytes "derived"

def kTrafficKeyUpdate : Bytes := asciiBytes "traffic upd"

def kResumption : Bytes := asciiBytes "resumption"

/-- The injected derivation primitive (`deriver_`).  It is abstract: every
theorem below is quantified over it, and a concrete instance is supplied only
to evaluate executions on concrete inputs. -/
structure Deriver where
  hashLength : Nat
  hkdfExtract : Bytes → Bytes → Bytes
  deriveSecret : Bytes → Bytes → Bytes → Bytes
  expandLabel : Bytes → Bytes → Bytes → Nat → Bytes
  blankHash : Bytes

/-- The `boost::variant<EarlySecret, HandshakeSecret, MasterSecret>` stored in
`secret_`. -/
inductive SecretType where
  | EarlySecret (secret : Bytes)
  | HandshakeSecret (secret : Bytes)
  | MasterSecret (secret : Bytes)
deriving DecidableEq, Repr

/-- The `AppTrafficSecret` record: per-direction traffic secrets plus the
`uint32_t` generation counters. -/
structure AppTrafficSecret where
  client : Bytes
  server : Bytes
  clientGeneration : Nat
  serverGeneration : Nat
deriving DecidableEq, Repr

/-- The output value object of `getTrafficKey`. -/
structure TrafficKey where
  key : Bytes
  iv : Bytes
deriving DecidableEq, Repr

/-- The scheduler's mutable state: `secret_` is a `folly::Optional` over the
chain variant, `appTrafficSecret_` a `folly::Optional<AppTrafficSecret>`. -/
structure KeyScheduler where
  secret_ : Option SecretType
  appTrafficSecret_ : Option AppTrafficSecret
deriving DecidableEq, Repr

/-- Failure modes of the C++ code: the explicit `std::runtime_error("secret
already set")` throw, a `boost::get` on a variant holding another alternative
(`boost::bad_get`), and a dereference of an empty `folly::Optional`. -/
inductive SchedulerError where
  | secretAlreadySet
  | badVariantAccess
  | emptyOptionalAccess
deriving DecidableEq, Repr

/-- Modelled from the spec: the scheduler's constructor and member default
initializers live in KeyScheduler.h, which is not part of this excerpt; per
the spec the initial chain state is `Uninitialized` and the application
traffic secret pair is "optional (present only after derivation)". -/
def freshScheduler : KeyScheduler := { secret_ := none, appTrafficSecret_ := none }

/-- Modelled from the spec: the generation members' default initializers live
in KeyScheduler.h, which is not part of this excerpt; the spec states
"Generations start at 0" / "generation counters initialized to 0". -/
def initialGeneration : Nat := 0

/-- Modulus of the `uint32_t` generation counters. -/
def u32Mod : Nat := 4294967296

/-- The all-zero buffer `std::vector<uint8_t>(deriver_->hashLength(), 0)`. -/
def zeros (n : Nat) : Bytes := List.replicate n 0

/-- `KeyScheduler::deriveEarlySecret(psk)`: throws if `secret_` is engaged,
otherwise stores `EarlySecret{hkdfExtract(zeros, psk)}`. -/
def deriveEarlySecret (d : Deriver) (ks : KeyScheduler) (psk : Bytes) :
    Except SchedulerError KeyScheduler :=
  match ks.secret_ with
  | some _ => .error .secretAlreadySet
  | none =>
    .ok { ks with secret_ := some (.EarlySecret (d.hkdfExtract (zeros d.hashLength) psk)) }

/-- The C++ `deriveEarlySecret` throws before any member write, so the object
observed after catching the exception is the pre-call object; this wrapper
makes that explicit by returning the surviving state with a success flag. -/
def deriveEarlySecretTry (d : Deriver) (ks : KeyScheduler) (psk : Bytes) :
    KeyScheduler × Bool :=
  match deriveEarlySecret d ks psk with
  | .ok ks2 => (ks2, true)
  | .error _ => (ks, false)

/-- `KeyScheduler::deriveHandshakeSecret()` (the overload without an ECDHE
argument): unconditionally unwraps `boost::get<EarlySecret>(*secret_)`, then
stores `HandshakeSecret{hkdfExtract(deriveSecret(early, "derived",
blankHash), zeros)}`. -/
def deriveHandshakeSecretNoArg (d : Deriver) (ks : KeyScheduler) :
    Except SchedulerError KeyScheduler :=
  match ks.secret_ with
  | none => .error .emptyOptionalAccess
  | some (.EarlySecret es) =>
    .ok { ks with secret_ := some (.HandshakeSecret
      (d.hkdfExtract (d.deriveSecret es kDerivedSecret d.blankHash) (zeros d.hashLength))) }
  | some _ => .error .badVariantAccess

/-- `KeyScheduler::deriveHandshakeSecret(ecdhe)`: if `secret_` is empty it
first stores `EarlySecret{hkdfExtract(zeros, zeros)}`, then unwraps
`boost::get<EarlySecret>(*secret_)` and stores
`HandshakeSecret{hkdfExtract(deriveSecret(early, "derived", blankHash),
ecdhe)}`. -/
def deriveHandshakeSecret (d : Deriver) (ks : KeyScheduler) (ecdhe : Bytes) :
    Except SchedulerError KeyScheduler :=
  let ks1 := match ks.secret_ with
    | none => { ks with secret_ := some (.EarlySecret
        (d.hkdfExtract (zeros d.hashLength) (zeros d.hashLength))) }
    | some _ => ks
  match ks1.secret_ with
  | none => .error .emptyOptionalAccess
  | some (.EarlySecret es) =>
    .ok { ks1 with secret_ := some (.HandshakeSecret
      (d.hkdfExtract (d.deriveSecret es kDerivedSecret d.blankHash) ecdhe)) }
  | some _ => .error .badVariantAccess

/-- `KeyScheduler::deriveMasterSecret()`: unwraps
`boost::get<HandshakeSecret>(*secret_)` and stores
`MasterSecret{hkdfExtract(deriveSecret(handshake, "derived", blankHash),
zeros)}`. -/
def deriveMasterSecret (d : Deriver) (ks : KeyScheduler) :
    Except SchedulerError KeyScheduler :=
  match ks.secret_ with
  | none => .error .emptyOptionalAccess
  | some (.HandshakeSecret hs) =>
    .ok { ks with secret_ := some (.MasterSecret
      (d.hkdfExtract (d.deriveSecret hs kDerivedSecret d.blankHash) (zeros d.hashLength))) }
  | some _ => .error .badVariantAccess

/-- `KeyScheduler::deriveAppTrafficSecrets(transcript)`: unwraps
`boost::get<MasterSecret>(*secret_)` and stores a freshly constructed
`AppTrafficSecret` whose `client`/`server` members are the "c ap traffic" /
"s ap traffic" derivations and whose generation counters carry their default
initial value (see `initialGeneration`). -/
def deriveAppTrafficSecrets (d : Deriver) (ks : KeyScheduler) (transcript : Bytes) :
    Except SchedulerError KeyScheduler :=
  match ks.secret_ with
  | none => .error .emptyOptionalAccess
  | some (.MasterSecret ms) =>
    .ok { ks with appTrafficSecret_ := some (
      { client := d.deriveSecret ms kClientAppTraffic transcript
        server := d.deriveSecret ms kServerAppTraffic transcript
        clientGeneration := initialGeneration
        serverGeneration := initialGeneration : AppTrafficSecret }) }
  | some _ => .error .badVariantAccess

/-- `KeyScheduler::clearMasterSecret()`: unwraps
`boost::get<MasterSecret>(*secret_)` (for the side effect of trapping on any
other variant) and then assigns `secret_ = folly::none`. -/
def clearMasterSecret (ks : KeyScheduler) : Except SchedulerError KeyScheduler :=
  match ks.secret_ with
  | none => .error .emptyOptionalAccess
  | some (.MasterSecret _) => .ok { ks with secret_ := none }
  | some _ => .error .badVariantAccess

/-- `KeyScheduler::clientKeyUpdate()`: dereferences `*appTrafficSecret_`,
replaces `client` with `expandLabel(client, "traffic upd", empty-IOBuf,
hashLength)`, and returns the pre-incremented `uint32_t` generation. -/
def clientKeyUpdate (d : Deriver) (ks : KeyScheduler) :
    Except SchedulerError (Nat × KeyScheduler) :=
  match ks.appTrafficSecret_ with
  | none => .error .emptyOptionalAccess
  | some ats =>
    let newClient := d.expandLabel ats.client kTrafficKeyUpdate [] d.hashLength
    let newGen := (ats.clientGeneration + 1) % u32Mod
    .ok (newGen, { ks with appTrafficSecret_ := some (
      { ats with client := newClient, clientGeneration := newGen }) })

/-- `KeyScheduler::serverKeyUpdate()`: the mirror image of
`clientKeyUpdate` acting on `server` and `serverGeneration`. -/
def serverKeyUpdate (d : Deriver) (ks : KeyScheduler) :
    Except SchedulerError (Nat × KeyScheduler) :=
  match ks.appTrafficSecret_ with
  | none => .error .emptyOptionalAccess
  | some ats =>
    let newServer := d.expandLabel ats.server kTrafficKeyUpdate [] d.hashLength
    let newGen := (ats.serverGeneration + 1) % u32Mod
    .ok (newGen, { ks with appTrafficSecret_ := some (
      { ats with server := newServer, serverGeneration := newGen }) })

/-- Selector enum for the early phase. -/
inductive EarlySecrets where
  | ExternalPskBinder
  | ResumptionPskBinder
  | ClientEarlyTraffic
  | EarlyExporter
deriving DecidableEq, Repr

/-- Selector enum for the handshake phase. -/
inductive HandshakeSecrets where
  | ClientHandshakeTraffic
  | ServerHandshakeTraffic
deriving DecidableEq, Repr

/-- Selector enum for the master phase. -/
inductive MasterSecrets where
  | ExporterMaster
  | ResumptionMaster
deriving DecidableEq, Repr

/-- Selector enum for the application traffic secrets. -/
inductive AppTrafficSecrets where
  | ClientAppTraffic
  | ServerAppTraffic
deriving DecidableEq, Repr

/-- `KeyScheduler::getSecret(EarlySecrets, transcript)`: picks the label for
the selector, unwraps `boost::get<EarlySecret>(*secret_)`, and derives.  (The
`default: LOG(FATAL)` branch of the C++ switch is unreachable here because
the Lean enum is exhaustive.) -/
def getSecretEarly (d : Deriver) (ks : KeyScheduler) (s : EarlySecrets)
    (transcript : Bytes) : Except SchedulerError Bytes :=
  let label := match s with
    | .ExternalPskBinder => kExternalPskBinder
    | .ResumptionPskBinder => kResumptionPskBinder
    | .ClientEarlyTraffic => kClientEarlyTraffic
    | .EarlyExporter => kEarlyExporter
  match ks.secret_ with
  | none => .error .emptyOptionalAccess
  | some (.EarlySecret es) => .ok (d.deriveSecret es label transcript)
  | some _ => .error .badVariantAccess

/-- `KeyScheduler::getSecret(HandshakeSecrets, transcript)`. -/
def getSecretHandshake (d : Deriver) (ks : KeyScheduler) (s : HandshakeSecrets)
    (transcript : Bytes) : Except SchedulerError Bytes :=
  let label := match s with
    | .ClientHandshakeTraffic => kClientHandshakeTraffic
    | .ServerHandshakeTraffic => kServerHandshakeTraffic
  match ks.secret_ with
  | none => .error .emptyOptionalAccess
  | some (.HandshakeSecret hs) => .ok (d.deriveSecret hs label transcript)
  | some _ => .error .badVariantAccess

/-- `KeyScheduler::getSecret(MasterSecrets, transcript)`. -/
def getSecretMaster (d : Deriver) (ks : KeyScheduler) (s : MasterSecrets)
    (transcript : Bytes) : Except SchedulerError Bytes :=
  let label := match s with
    | .ExporterMaster => kExporterMaster
    | .ResumptionMaster => kResumptionMaster
  match ks.secret_ with
  | none => .error .emptyOptionalAccess
  | some (.MasterSecret ms) => .ok (d.deriveSecret ms label transcript)
  | some _ => .error .badVariantAccess

/-- `KeyScheduler::getSecret(AppTrafficSecrets)`: dereferences
`*appTrafficSecret_` and returns a copy of the requested side's secret. -/
def getSecretApp (ks : KeyScheduler) (s : AppTrafficSecrets) :
    Except SchedulerError Bytes :=
  match ks.appTrafficSecret_ with
  | none => .error .emptyOptionalAccess
  | some ats =>
    match s with
    | .ClientAppTraffic => .ok ats.client
    | .ServerAppTraffic => .ok ats.server

/-- `KeyScheduler::getTrafficKey(trafficSecret, keyLength, ivLength)`: a
`const` method touching no scheduler state; both expansions use an empty
context buffer (`IOBuf::create(0)`). -/
def getTrafficKey (d : Deriver) (trafficSecret : Bytes) (keyLength ivLength : Nat) :
    TrafficKey :=
  { key := d.expandLabel trafficSecret kTrafficKey [] keyLength
    iv := d.expandLabel trafficSecret kTrafficIv [] ivLength }

/-- `KeyScheduler::getResumptionSecret(resumptionMasterSecret, ticketNonce)`:
a `const` method touching no scheduler state; the ticket nonce is the
expansion's context buffer (`IOBuf::wrapBuffer(ticketNonce)`). -/
def getResumptionSecret (d : Deriver) (resumptionMasterSecret ticketNonce : Bytes) :
    Bytes :=
  d.expandLabel resumptionMasterSecret kResumption ticketNonce d.hashLength

/-- Sum of a byte buffer, used by the concrete test primitive. -/
def byteSum (b : Bytes) : Nat := b.foldl (fun a x => a + x) 0

/-- A small concrete derivation primitive used to evaluate executions on
concrete inputs (every secret it produces is a single byte, keeping
executions cheap to evaluate). -/
def testDeriver : Deriver where
  hashLength := 1
  hkdfExtract := fun salt ikm => [(1 + byteSum salt + 3 * byteSum ikm) % 251]
  deriveSecret := fun s l c => [(2 + byteSum s + 5 * byteSum l + 7 * byteSum c) % 251]
  expandLabel := fun s l c len => List.replicate len ((3 + byteSum s + 11 * byteSum l + 13 * byteSum c) % 251)
  blankHash := [17]

/-- Success test for an `Except` result (the call returned normally rather
than throwing or trapping). -/
def isOkE {α : Type} (x : Except SchedulerError α) : Bool :=
  match x with
  | .ok _ => true
  | .error _ => false

/-- One "traffic upd" expansion step on a traffic secret, as performed by the
key-update methods. -/
def trafficUpd (d : Deriver) (b : Bytes) : Bytes :=
  d.expandLabel b kTrafficKeyUpdate [] d.hashLength

/-- Iterated `clientKeyUpdate`: `n` successive calls, collecting the returned
generation values in order. -/
def clientKeyUpdateSeq (d : Deriver) (ks : KeyScheduler) :
    Nat → Except SchedulerError (List Nat × KeyScheduler)
  | 0 => .ok ([], ks)
  | n + 1 =>
    match clientKeyUpdateSeq d ks n with
    | .error e => .error e
    | .ok (rets, ks1) =>
      match clientKeyUpdate d ks1 with
      | .error e => .error e
      | .ok (r, ks2) => .ok (rets ++ [r], ks2)

/-- Iterated `serverKeyUpdate`: `n` successive calls, collecting the returned
generation values in order. -/
def serverKeyUpdateSeq (d : Deriver) (ks : KeyScheduler) :
    Nat → Except SchedulerError (List Nat × KeyScheduler)
  | 0 => .ok ([], ks)
  | n + 1 =>
    match serverKeyUpdateSeq d ks n with
    | .error e => .error e
    | .ok (rets, ks1) =>
      match serverKeyUpdate d ks1 with
      | .error e => .error e
      | .ok (r, ks2) => .ok (rets ++ [r], ks2)

/-- A concrete run with `testDeriver`: early secret from PSK `[5]`, handshake
secret with ECDHE `[9]`, master secret, then application traffic secrets from
transcript `[3]`. -/
def exampleChain : Except SchedulerError KeyScheduler :=
  (deriveEarlySecret testDeriver freshScheduler [5]).bind
    (fun ks => deriveHandshakeSecret testDeriver ks [9]) |>.bind
    (fun ks => deriveMasterSecret testDeriver ks) |>.bind
    (fun ks => deriveAppTrafficSecrets testDeriver ks [3])

/-- The state `exampleChain` reaches (checked by `rfl` where it is used). -/
def exampleTrafficState : KeyScheduler :=
  ⟨some (.MasterSecret [147]), some ⟨[183], [12], 0, 0⟩⟩

/-- The `exampleChain` state after one `clientKeyUpdate`. -/
def exampleAfterUpdate : Except SchedulerError KeyScheduler :=
  exampleChain.bind (fun ks => (clientKeyUpdate testDeriver ks).map Prod.snd)

/-- Claim C1: with the derivation primitive abstract and fixed, the secret
chain computes exactly the RFC 8446 ladder: from `Uninitialized`,
`deriveEarlySecret(psk)` stores `hkdfExtract(zeros, psk)` as `EarlySecret`;
from `EarlySecret`, `deriveHandshakeSecret(ecdhe)` stores
`hkdfExtract(deriveSecret(early, "derived", blankHash), ecdhe)` as
`HandshakeSecret`; from `HandshakeSecret`, `deriveMasterSecret()` stores
`hkdfExtract(deriveSecret(handshake, "derived", blankHash), zeros)` as
`MasterSecret`. -/
theorem secretChain_ladder (d : Deriver) (psk ecdhe es hs : Bytes)
    (app : Option AppTrafficSecret) :
    deriveEarlySecret d ⟨none, app⟩ psk =
      .ok ⟨some (.EarlySecret (d.hkdfExtract (zeros d.hashLength) psk)), app⟩ ∧
    deriveHandshakeSecret d ⟨some (.EarlySecret es), app⟩ ecdhe =
      .ok ⟨some (.HandshakeSecret
        (d.hkdfExtract (d.deriveSecret es kDerivedSecret d.blankHash) ecdhe)), app⟩ ∧
    deriveMasterSecret d ⟨some (.HandshakeSecret hs), app⟩ =
      .ok ⟨some (.MasterSecret
        (d.hkdfExtract (d.deriveSecret hs kDerivedSecret d.blankHash)
          (zeros d.hashLength))), app⟩ :=
  ⟨rfl, rfl, rfl⟩

/-- Helper: a run of `n` client key updates from a state whose traffic
secrets are present returns the generations `(g+1) % 2^32, …, (g+n) % 2^32`
and leaves the client secret ratcheted `n` times, everything else
untouched. -/
theorem clientKeyUpdateSeq_spec (d : Deriver) (sec : Option SecretType)
    (ats : AppTrafficSecret) (hg : ats.clientGeneration < u32Mod) (n : Nat) :
    clientKeyUpdateSeq d ⟨sec, some ats⟩ n =
      .ok ((List.range' 1 n).map (fun i => (ats.clientGeneration + i) % u32Mod),
        ⟨sec, some ⟨(trafficUpd d)^[n] ats.client, ats.server,
          (ats.clientGeneration + n) % u32Mod, ats.serverGeneration⟩⟩) := by
  induction n with
  | zero =>
    simp [clientKeyUpdateSeq, Nat.mod_eq_of_lt hg]
  | succ n ih =>
    simp only [clientKeyUpdateSeq, ih]
    simp [clientKeyUpdate, trafficUpd, List.range'_concat, Function.iterate_succ_apply',
      Nat.mod_add_mod, Nat.add_assoc, Nat.add_comm, Nat.add_left_comm]

/-- Helper: the mirror-image run of `n` server key updates. -/
theorem serverKeyUpdateSeq_spec (d : Deriver) (sec : Option SecretType)
    (ats : AppTrafficSecret) (hg : ats.serverGeneration < u32Mod) (n : Nat) :
    serverKeyUpdateSeq d ⟨sec, some ats⟩ n =
      .ok ((List.range' 1 n).map (fun i => (ats.serverGeneration + i) % u32Mod),
        ⟨sec, some ⟨ats.client, (trafficUpd d)^[n] ats.server,
          ats.clientGeneration, (ats.serverGeneration + n) % u32Mod⟩⟩) := by
  induction n with
  | zero =>
    simp [serverKeyUpdateSeq, Nat.mod_eq_of_lt hg]
  | succ n ih =>
    simp only [serverKeyUpdateSeq, ih]
    simp [serverKeyUpdate, trafficUpd, List.range'_concat, Function.iterate_succ_apply',
      Nat.mod_add_mod, Nat.add_assoc, Nat.add_comm, Nat.add_left_comm]

/-- Claim C2 (counterexample): the claim says that after `clearMasterSecret`
no chain derivation succeeds again, and that each derivation requires its
predecessor variant.  In the code `clearMasterSecret` merely empties the
optional slot, so `deriveEarlySecret` succeeds again on the cleared instance,
and `deriveHandshakeSecret(ecdhe)` succeeds on a fresh instance with no
predecessor `EarlySecret`. -/
theorem clearedState_rederivable :
    isOkE ((exampleChain.bind clearMasterSecret).bind
      (fun ks => deriveEarlySecret testDeriver ks [5])) = true ∧
    isOkE (deriveHandshakeSecret testDeriver freshScheduler [9]) = true :=
  ⟨rfl, rfl⟩

/-- Claim C2 (amended): the chain state advances strictly forward, each
derivation trapping on any state other than its required predecessor — except
that `deriveHandshakeSecret(ecdhe)` bootstraps from the empty state;
`clearMasterSecret` requires `MasterSecret` and empties the slot, returning
the instance to the `Uninitialized`-equivalent empty state: afterwards every
phase retrieval fails, but derivations accepted in the empty state
(`deriveEarlySecret`, and the bootstrap path) succeed again. -/
theorem chain_state_transitions (d : Deriver) (st : SecretType)
    (es hs ms psk ecdhe tr : Bytes) (app : Option AppTrafficSecret)
    (sE : EarlySecrets) (sH : HandshakeSecrets) (sM : MasterSecrets) :
    deriveEarlySecret d ⟨some st, app⟩ psk = .error .secretAlreadySet ∧
    deriveHandshakeSecretNoArg d ⟨some (.HandshakeSecret hs), app⟩ = .error .badVariantAccess ∧
    deriveHandshakeSecretNoArg d ⟨some (.MasterSecret ms), app⟩ = .error .badVariantAccess ∧
    deriveHandshakeSecret d ⟨some (.HandshakeSecret hs), app⟩ ecdhe = .error .badVariantAccess ∧
    deriveHandshakeSecret d ⟨some (.MasterSecret ms), app⟩ ecdhe = .error .badVariantAccess ∧
    deriveMasterSecret d ⟨some (.EarlySecret es), app⟩ = .error .badVariantAccess ∧
    deriveMasterSecret d ⟨some (.MasterSecret ms), app⟩ = .error .badVariantAccess ∧
    deriveMasterSecret d ⟨none, app⟩ = .error .emptyOptionalAccess ∧
    deriveAppTrafficSecrets d ⟨some (.EarlySecret es), app⟩ tr = .error .badVariantAccess ∧
    deriveAppTrafficSecrets d ⟨some (.HandshakeSecret hs), app⟩ tr = .error .badVariantAccess ∧
    deriveAppTrafficSecrets d ⟨none, app⟩ tr = .error .emptyOptionalAccess ∧
    clearMasterSecret ⟨some (.EarlySecret es), app⟩ = .error .badVariantAccess ∧
    clearMasterSecret ⟨some (.HandshakeSecret hs), app⟩ = .error .badVariantAccess ∧
    clearMasterSecret ⟨none, app⟩ = .error .emptyOptionalAccess ∧
    clearMasterSecret ⟨some (.MasterSecret ms), app⟩ = .ok ⟨none, app⟩ ∧
    getSecretEarly d ⟨none, app⟩ sE tr = .error .emptyOptionalAccess ∧
    getSecretHandshake d ⟨none, app⟩ sH tr = .error .emptyOptionalAccess ∧
    getSecretMaster d ⟨none, app⟩ sM tr = .error .emptyOptionalAccess ∧
    isOkE (deriveEarlySecret d ⟨none, app⟩ psk) = true ∧
    isOkE (deriveHandshakeSecret d ⟨none, app⟩ ecdhe) = true :=
  ⟨rfl, rfl, rfl, rfl, rfl, rfl, rfl, rfl, rfl, rfl, rfl, rfl, rfl, rfl, rfl,
   rfl, rfl, rfl, rfl, rfl⟩

/-- Claim C3 (counterexample): the claim says the no-argument
`deriveHandshakeSecret()` has no precondition and succeeds when called first
on a fresh instance.  In the code that overload unconditionally unwraps
`boost::get<EarlySecret>(*secret_)`, so on a fresh instance it dereferences
the empty optional and fails. -/
theorem noArg_handshake_fresh_fails :
    deriveHandshakeSecretNoArg testDeriver freshScheduler = .error .emptyOptionalAccess :=
  rfl

/-- Claim C3 (amended): the no-argument `deriveHandshakeSecret()` requires a
live `EarlySecret`, and then stores
`hkdfExtract(deriveSecret(early, "derived", blankHash), zeros)` as
`HandshakeSecret`; it is the ECDHE-taking overload that auto-bootstraps: from
the empty state it first synthesizes `EarlySecret = hkdfExtract(zeros,
zeros)` (an all-zero PSK) and then stores `hkdfExtract(deriveSecret(early0,
"derived", blankHash), ecdhe)`. -/
theorem handshake_overload_behavior (d : Deriver) (es ecdhe : Bytes)
    (app : Option AppTrafficSecret) :
    deriveHandshakeSecretNoArg d ⟨none, app⟩ = .error .emptyOptionalAccess ∧
    deriveHandshakeSecretNoArg d ⟨some (.EarlySecret es), app⟩ =
      .ok ⟨some (.HandshakeSecret
        (d.hkdfExtract (d.deriveSecret es kDerivedSecret d.blankHash)
          (zeros d.hashLength))), app⟩ ∧
    deriveHandshakeSecret d ⟨none, app⟩ ecdhe =
      .ok ⟨some (.HandshakeSecret
        (d.hkdfExtract
          (d.deriveSecret (d.hkdfExtract (zeros d.hashLength) (zeros d.hashLength))
            kDerivedSecret d.blankHash)
          ecdhe)), app⟩ :=
  ⟨rfl, rfl, rfl⟩

/-- Claim C4 (counterexample): the claim says that for every n ≥ 1 the i-th
key-update call returns generation value i.  The generation is a `uint32_t`,
so the 4294967296-th call (one call after 4294967295 previous ones) returns
0, not 4294967296.  The starting state is the one `exampleChain` actually
reaches (first conjunct). -/
theorem keyUpdate_generation_wraps :
    exampleChain = .ok exampleTrafficState ∧
    ((clientKeyUpdateSeq testDeriver exampleTrafficState 4294967295).bind
      (fun p => clientKeyUpdate testDeriver p.2)).map Prod.fst = .ok 0 ∧
    (0 : Nat) ≠ 4294967296 := by
  refine ⟨rfl, ?_, by norm_num⟩
  have h := clientKeyUpdateSeq_spec testDeriver (some (.MasterSecret [147]))
    ⟨[183], [12], 0, 0⟩ (by norm_num [u32Mod]) 4294967295
  simp only [exampleTrafficState]
  rw [h]
  show Except.ok ((((0 : Nat) + 4294967295) % u32Mod + 1) % u32Mod) = Except.ok 0
  norm_num [u32Mod]

/-- Claim C4 (amended): after `deriveAppTrafficSecrets` has stored the
traffic secrets (generations 0), the i-th call to `clientKeyUpdate`
(respectively `serverKeyUpdate`) returns `i % 2^32` — i.e. the values
`1, 2, …, n` in order for every `n < 2^32` — and each call replaces the
stored client (respectively server) secret with
`expandLabel(previousSecret, "traffic upd", emptyContext, hashLength)`,
leaving the other side untouched. -/
theorem keyUpdate_generation_sequence (d : Deriver) (sec : Option SecretType)
    (c s : Bytes) (n : Nat) :
    clientKeyUpdateSeq d ⟨sec, some ⟨c, s, 0, 0⟩⟩ n =
      .ok ((List.range' 1 n).map (fun i => i % u32Mod),
        ⟨sec, some ⟨(trafficUpd d)^[n] c, s, n % u32Mod, 0⟩⟩) ∧
    serverKeyUpdateSeq d ⟨sec, some ⟨c, s, 0, 0⟩⟩ n =
      .ok ((List.range' 1 n).map (fun i => i % u32Mod),
        ⟨sec, some ⟨c, (trafficUpd d)^[n] s, 0, n % u32Mod⟩⟩) := by
  constructor
  · have h := clientKeyUpdateSeq_spec d sec ⟨c, s, 0, 0⟩ (by norm_num [u32Mod]) n
    simpa using h
  · have h := serverKeyUpdateSeq_spec d sec ⟨c, s, 0, 0⟩ (by norm_num [u32Mod]) n
    simpa using h

/-- Claim C5 (counterexample): the claim says no scheduler operation ever
resets either generation counter.  In the code a repeated
`deriveAppTrafficSecrets` (legal whenever the master secret is still live)
stores a freshly constructed `AppTrafficSecret`, resetting both counters: on
the concrete run the client generation is 1 after a key update and 0 again
after a second `deriveAppTrafficSecrets`. -/
theorem appTrafficSecrets_reset_generations :
    exampleAfterUpdate.map
      (fun ks => ks.appTrafficSecret_.map (fun a => a.clientGeneration)) = .ok (some 1) ∧
    (exampleAfterUpdate.bind (fun ks => deriveAppTrafficSecrets testDeriver ks [3])).map
      (fun ks => ks.appTrafficSecret_.map (fun a => a.clientGeneration)) = .ok (some 0) :=
  ⟨rfl, rfl⟩

/-- Claim C5 (amended): `deriveAppTrafficSecrets` stores the traffic secrets
with both generation counters initialized to 0; each key-update call advances
the counter of its own side by exactly 1 (as a `uint32_t`, i.e. modulo 2^32)
and leaves the other side's counter unchanged; no other scheduler operation
changes either counter — with the single exception of
`deriveAppTrafficSecrets` itself, whose repetition re-initializes both
counters to 0. -/
theorem generation_counter_effects (d : Deriver)
    (es hs ms psk ecdhe tr c s : Bytes) (g h : Nat)
    (sec : Option SecretType) (app : Option AppTrafficSecret) :
    deriveEarlySecret d ⟨none, app⟩ psk =
      .ok ⟨some (.EarlySecret (d.hkdfExtract (zeros d.hashLength) psk)), app⟩ ∧
    deriveHandshakeSecretNoArg d ⟨some (.EarlySecret es), app⟩ =
      .ok ⟨some (.HandshakeSecret
        (d.hkdfExtract (d.deriveSecret es kDerivedSecret d.blankHash)
          (zeros d.hashLength))), app⟩ ∧
    (deriveHandshakeSecret d ⟨some (.EarlySecret es), app⟩ ecdhe).map
      KeyScheduler.appTrafficSecret_ = .ok app ∧
    (deriveHandshakeSecret d ⟨none, app⟩ ecdhe).map
      KeyScheduler.appTrafficSecret_ = .ok app ∧
    (deriveMasterSecret d ⟨some (.HandshakeSecret hs), app⟩).map
      KeyScheduler.appTrafficSecret_ = .ok app ∧
    clearMasterSecret ⟨some (.MasterSecret ms), app⟩ = .ok ⟨none, app⟩ ∧
    deriveAppTrafficSecrets d ⟨some (.MasterSecret ms), app⟩ tr =
      .ok ⟨some (.MasterSecret ms), some
        ⟨d.deriveSecret ms kClientAppTraffic tr, d.deriveSecret ms kServerAppTraffic tr,
          0, 0⟩⟩ ∧
    clientKeyUpdate d ⟨sec, some ⟨c, s, g, h⟩⟩ =
      .ok ((g + 1) % u32Mod,
        ⟨sec, some ⟨trafficUpd d c, s, (g + 1) % u32Mod, h⟩⟩) ∧
    serverKeyUpdate d ⟨sec, some ⟨c, s, g, h⟩⟩ =
      .ok ((h + 1) % u32Mod,
        ⟨sec, some ⟨c, trafficUpd d s, g, (h + 1) % u32Mod⟩⟩) :=
  ⟨rfl, rfl, rfl, rfl, rfl, rfl, rfl, rfl, rfl⟩

/-- Claim C6: each phase-scoped `getSecret` overload returns
`deriveSecret(currentPhaseSecret, label, transcript)` with the selector's
label when the matching chain variant is live, and fails — it returns an
error, never zero-filled or wrong-phase bytes — on every other live
variant. -/
theorem getSecret_phase_correct (d : Deriver) (es hs ms tr : Bytes)
    (app : Option AppTrafficSecret) :
    getSecretEarly d ⟨some (.EarlySecret es), app⟩ .ExternalPskBinder tr =
      .ok (d.deriveSecret es kExternalPskBinder tr) ∧
    getSecretEarly d ⟨some (.EarlySecret es), app⟩ .ResumptionPskBinder tr =
      .ok (d.deriveSecret es kResumptionPskBinder tr) ∧
    getSecretEarly d ⟨some (.EarlySecret es), app⟩ .ClientEarlyTraffic tr =
      .ok (d.deriveSecret es kClientEarlyTraffic tr) ∧
    getSecretEarly d ⟨some (.EarlySecret es), app⟩ .EarlyExporter tr =
      .ok (d.deriveSecret es kEarlyExporter tr) ∧
    getSecretHandshake d ⟨some (.HandshakeSecret hs), app⟩ .ClientHandshakeTraffic tr =
      .ok (d.deriveSecret hs kClientHandshakeTraffic tr) ∧
    getSecretHandshake d ⟨some (.HandshakeSecret hs), app⟩ .ServerHandshakeTraffic tr =
      .ok (d.deriveSecret hs kServerHandshakeTraffic tr) ∧
    getSecretMaster d ⟨some (.MasterSecret ms), app⟩ .ExporterMaster tr =
      .ok (d.deriveSecret ms kExporterMaster tr) ∧
    getSecretMaster d ⟨some (.MasterSecret ms), app⟩ .ResumptionMaster tr =
      .ok (d.deriveSecret ms kResumptionMaster tr) ∧
    (∀ s : EarlySecrets,
      getSecretEarly d ⟨some (.HandshakeSecret hs), app⟩ s tr = .error .badVariantAccess) ∧
    (∀ s : EarlySecrets,
      getSecretEarly d ⟨some (.MasterSecret ms), app⟩ s tr = .error .badVariantAccess) ∧
    (∀ s : EarlySecrets,
      getSecretEarly d ⟨none, app⟩ s tr = .error .emptyOptionalAccess) ∧
    (∀ s : HandshakeSecrets,
      getSecretHandshake d ⟨some (.EarlySecret es), app⟩ s tr = .error .badVariantAccess) ∧
    (∀ s : HandshakeSecrets,
      getSecretHandshake d ⟨some (.MasterSecret ms), app⟩ s tr = .error .badVariantAccess) ∧
    (∀ s : HandshakeSecrets,
      getSecretHandshake d ⟨none, app⟩ s tr = .error .emptyOptionalAccess) ∧
    (∀ s : MasterSecrets,
      getSecretMaster d ⟨some (.EarlySecret es), app⟩ s tr = .error .badVariantAccess) ∧
    (∀ s : MasterSecrets,
      getSecretMaster d ⟨some (.HandshakeSecret hs), app⟩ s tr = .error .badVariantAccess) ∧
    (∀ s : MasterSecrets,
      getSecretMaster d ⟨none, app⟩ s tr = .error .emptyOptionalAccess) :=
  ⟨rfl, rfl, rfl, rfl, rfl, rfl, rfl, rfl,
   fun _ => rfl, fun _ => rfl, fun _ => rfl, fun _ => rfl, fun _ => rfl,
   fun _ => rfl, fun _ => rfl, fun _ => rfl, fun _ => rfl⟩

/-- Claim C7: `deriveEarlySecret` called while any chain secret is set fails
with the "secret already set" error, and the throw happens before any member
write, so the stored secret and state survive unchanged (the `Try` wrapper
returns the original state with the failure flag): a second call never
silently overwrites the first early secret. -/
theorem deriveEarlySecret_already_initialized (d : Deriver) (st : SecretType)
    (app : Option AppTrafficSecret) (psk : Bytes) :
    deriveEarlySecret d ⟨some st, app⟩ psk = .error .secretAlreadySet ∧
    deriveEarlySecretTry d ⟨some st, app⟩ psk = (⟨some st, app⟩, false) :=
  ⟨rfl, rfl⟩

/-- Claim C8: `serverKeyUpdate` modifies only the server-side half of the
application traffic state, `clientKeyUpdate` only the client-side half; in
particular right after `deriveAppTrafficSecrets` (both generations 0) a
`serverKeyUpdate` leaves the client secret and generation at their old values
and sets the server generation to 1. -/
theorem keyUpdate_frame (d : Deriver) (sec : Option SecretType)
    (c s : Bytes) (g h : Nat) :
    serverKeyUpdate d ⟨sec, some ⟨c, s, g, h⟩⟩ =
      .ok ((h + 1) % u32Mod,
        ⟨sec, some ⟨c, trafficUpd d s, g, (h + 1) % u32Mod⟩⟩) ∧
    clientKeyUpdate d ⟨sec, some ⟨c, s, g, h⟩⟩ =
      .ok ((g + 1) % u32Mod,
        ⟨sec, some ⟨trafficUpd d c, s, (g + 1) % u32Mod, h⟩⟩) ∧
    serverKeyUpdate d ⟨sec, some ⟨c, s, 0, 0⟩⟩ =
      .ok (1, ⟨sec, some ⟨c, trafficUpd d s, 0, 1⟩⟩) :=
  ⟨rfl, rfl, rfl⟩

/-- Claim C9: `getTrafficKey` and `getResumptionSecret` are pure functions of
their arguments (they are embedded without access to the scheduler state,
mirroring the `const` methods that read no members besides the fixed
primitive): the key/iv pair is the "key"/"iv" expansion with empty context,
and the resumption secret is the "resumption" expansion with the ticket nonce
as context; identical inputs give byte-identical outputs by construction. -/
theorem materializers_pure (d : Deriver) (ts rms nonce : Bytes) (kl il : Nat) :
    getTrafficKey d ts kl il =
      { key := d.expandLabel ts kTrafficKey [] kl
        iv := d.expandLabel ts kTrafficIv [] il } ∧
    getResumptionSecret d rms nonce =
      d.expandLabel rms kResumption nonce d.hashLength :=
  ⟨rfl, rfl⟩

/-- Claim C10: `clearMasterSecret` empties only the chain slot and leaves the
application-traffic slot untouched, so both key updates and
`getSecret(AppTrafficSecrets)` still succeed and ratchet normally on the
cleared instance. -/
theorem clearMasterSecret_frame (d : Deriver) (ms c s : Bytes) (g h : Nat)
    (app : Option AppTrafficSecret) :
    clearMasterSecret ⟨some (.MasterSecret ms), app⟩ = .ok ⟨none, app⟩ ∧
    clientKeyUpdate d ⟨none, some ⟨c, s, g, h⟩⟩ =
      .ok ((g + 1) % u32Mod,
        ⟨none, some ⟨trafficUpd d c, s, (g + 1) % u32Mod, h⟩⟩) ∧
    serverKeyUpdate d ⟨none, some ⟨c, s, g, h⟩⟩ =
      .ok ((h + 1) % u32Mod,
        ⟨none, some ⟨c, trafficUpd d s, g, (h + 1) % u32Mod⟩⟩) ∧
    getSecretApp ⟨none, some ⟨c, s, g, h⟩⟩ .ClientAppTraffic = .ok c ∧
    getSecretApp ⟨none, some ⟨c, s, g, h⟩⟩ .ServerAppTraffic = .ok s :=
  ⟨rfl, rfl, rfl, rfl, rfl⟩
